import Mathlib

/-!
Shallow embedding of the `typing-examples` repository.

Source files embedded here:
* `src/typing_examples/type_narrowing_generic_result.py` — a two-variant
  tagged result type (`Ok` / `Err`) conforming to a `ResultInterface`
  protocol with fields `response`, `error`, `is_success`; a producing
  function `interface`; a module-level `result = interface(12)` and an
  illustrative narrowing branch on `result.is_success`.
* `src/typing_examples/circular_imports/file_a.py` and
  `src/examples/circular_imports/file_b.py` — classes `A` and `B`, each
  with a factory classmethod taking an instance of the other and
  returning `cls()`.
-/

namespace TypingExamples

/-- Embedding of the Python exception values this module can construct or
store in the `error : Optional[BaseException]` field.  The module itself
only ever constructs `ValueError()`; further constructors stand for the
rest of the open `BaseException` hierarchy so that "the error is
specifically a `ValueError` built with no arguments" is a non-trivial
statement.  Each constructor carries its `args` tuple. -/
inductive PyBaseException : Type
  | valueError (args : List String)
  | typeError (args : List String)
  | baseException (args : List String)
  deriving DecidableEq, Repr

/-- Embedding of
`@dataclass class Ok(ResultInterface[T])` with fields
`response : T`, `error : Literal[None] = None`,
`is_success : Literal[True] = True`.  The `Literal` annotations are
embedded as subtypes pinned to the annotated value, so a well-typed
construction or field assignment can only supply that value. -/
structure Ok (T : Type) : Type where
  response : T
  error : {e : Option PyBaseException // e = none} := ⟨none, rfl⟩
  is_success : {b : Bool // b = true} := ⟨true, rfl⟩
  deriving DecidableEq

/-- Embedding of
`@dataclass class Err(ResultInterface[T])` with fields
`error : BaseException`, `response : Literal[None] = None`,
`is_success : Literal[False] = False`. -/
structure Err (T : Type) : Type where
  error : PyBaseException
  response : {r : Option T // r = none} := ⟨none, rfl⟩
  is_success : {b : Bool // b = false} := ⟨false, rfl⟩
  deriving DecidableEq

/-- The union `Ok[T] | Err[T]` returned by `interface`. -/
inductive ResultT (T : Type) : Type
  | ok (o : Ok T)
  | err (e : Err T)
  deriving DecidableEq

/-- The `response : Optional[T]` field read through the
`ResultInterface` protocol: `Ok` stores the carried value, `Err` stores
its `Literal[None]` default. -/
def ResultT.response {T : Type} : ResultT T → Option T
  | .ok o => some o.response
  | .err e => e.response.val

/-- The `error : Optional[BaseException]` field read through the
protocol: `Ok` stores its `Literal[None]` default, `Err` the stored
exception. -/
def ResultT.error {T : Type} : ResultT T → Option PyBaseException
  | .ok o => o.error.val
  | .err e => some e.error

/-- The `is_success : bool` discriminant read through the protocol. -/
def ResultT.is_success {T : Type} : ResultT T → Bool
  | .ok o => o.is_success.val
  | .err e => e.is_success.val

/-- Embedding of
`def interface(value: int) -> Ok[int] | Err[int]:`
`    return Ok(response=value) if value > 10 else Err(error=ValueError())`. -/
def interface (value : Int) : ResultT Int :=
  if value > 10 then ResultT.ok { response := value }
  else ResultT.err { error := PyBaseException.valueError [] }

/-- The body of `interface` translated statement by statement in explicit
state-passing style over an arbitrary ambient state `σ`: the body is a
single `return` of a pure conditional expression (an `int` comparison and
two dataclass constructions), none of which touches any state, so the
state threads through unchanged. -/
def interfaceRun (σ : Type) (value : Int) (s : σ) : ResultT Int × σ :=
  (if value > 10 then ResultT.ok { response := value }
   else ResultT.err { error := PyBaseException.valueError [] }, s)

/-- The body of `interface` translated into the `Except` monad tracking
Python exceptions: the comparison `value > 10` on ints, the construction
`Ok(response=value)` and the construction `ValueError()` cannot raise, so
every evaluation path ends in `Except.ok`. -/
def interfaceExcept (value : Int) : Except PyBaseException (ResultT Int) :=
  if value > 10 then Except.ok (ResultT.ok { response := value })
  else Except.ok (ResultT.err { error := PyBaseException.valueError [] })

/-- The module-level binding `result = interface(12)`. -/
def result : ResultT Int := interface 12

/-- Which arm of the module's illustrative `if result.is_success is True:`
branch ran, with the expression that arm evaluated
(`result.response` or `result.error`). -/
inductive BranchTaken : Type
  | success (v : Option Int)
  | failure (e : Option PyBaseException)
  deriving DecidableEq

/-- The module's illustrative branch, translated into the `Except` monad
tracking Python exceptions: both arms merely read a field of `r`
(`r.response` in the success arm, `r.error` in the failure arm), and an
attribute read of a dataclass field cannot raise, so each arm ends in
`Except.ok`.  Nothing is ever raised - in particular the stored exception
in the failure arm is referenced, not raised. -/
def moduleBranch (r : ResultT Int) : Except PyBaseException BranchTaken :=
  if r.is_success = true then Except.ok (BranchTaken.success r.response)
  else Except.ok (BranchTaken.failure r.error)

/-- A well-typed assignment to the `is_success : Literal[True]` field of
an `Ok` value: the `Literal[True]` annotation only admits the value
`True`. -/
def Ok.set_is_success {T : Type} (o : Ok T) (b : {b : Bool // b = true}) :
    Ok T :=
  { o with is_success := b }

/-- A well-typed assignment to the `response : T` field of an `Ok`
value. -/
def Ok.set_response {T : Type} (o : Ok T) (r : T) : Ok T :=
  { o with response := r }

/-- A well-typed assignment to the `is_success : Literal[False]` field of
an `Err` value: the `Literal[False]` annotation only admits the value
`False`. -/
def Err.set_is_success {T : Type} (e : Err T) (b : {b : Bool // b = false}) :
    Err T :=
  { e with is_success := b }

/-- A well-typed assignment to the `error : BaseException` field of an
`Err` value. -/
def Err.set_error {T : Type} (e : Err T) (x : PyBaseException) : Err T :=
  { e with error := x }

/-- Embedding of `class A` from
`src/typing_examples/circular_imports/file_a.py`: a class with no fields
of its own. -/
structure A : Type where
  deriving DecidableEq

/-- Embedding of `class B` from
`src/examples/circular_imports/file_b.py`: a class with no fields of its
own. -/
structure B : Type where
  deriving DecidableEq

/-- Embedding of `A.from_b`: `def from_b(cls, b: B) -> Self: return cls()`. -/
def A.from_b (b : B) : A := {}

/-- Embedding of `B.from_a`: `def from_a(cls, a: A) -> Self: return cls()`. -/
def B.from_a (a : A) : B := {}

/-- C1: for every integer `v` with `v > 10`, `interface v` returns the
success variant `Ok` carrying `v` as its `response`, with the `error`
field absent (`none`). -/
theorem interface_gt_returns_ok (v : Int) (h : v > 10) :
    interface v = ResultT.ok { response := v } ∧
    (interface v).response = some v ∧ (interface v).error = none := by
  unfold interface
  rw [if_pos h]
  exact ⟨rfl, rfl, rfl⟩

/-- Witness for C1 at the concrete input `12`. -/
theorem interface_gt_returns_ok_witness :
    (12 : Int) > 10 ∧
      (interface 12 = ResultT.ok { response := (12 : Int) } ∧
        (interface 12).response = some 12 ∧ (interface 12).error = none) :=
  ⟨by decide, interface_gt_returns_ok 12 (by decide)⟩

/-- C2: for every integer `v` with `v ≤ 10` (boundary included),
`interface v` returns the failure variant `Err`, whose `error` field is
present and whose `response` field is `none`. -/
theorem interface_le_returns_err (v : Int) (h : v ≤ 10) :
    (∃ e, interface v = ResultT.err e) ∧
    (interface v).error.isSome = true ∧
    (interface v).response = none ∧ (interface v).is_success = false := by
  have hlt : ¬ v > 10 := not_lt.mpr h
  simp only [interface, if_neg hlt]
  exact ⟨⟨_, rfl⟩, rfl, rfl, rfl⟩

/-- Witness for C2 at the boundary input `10`. -/
theorem interface_le_returns_err_witness :
    (10 : Int) ≤ 10 ∧
      ((∃ e, interface 10 = ResultT.err e) ∧
        (interface 10).error.isSome = true ∧
        (interface 10).response = none ∧ (interface 10).is_success = false) :=
  ⟨by decide, interface_le_returns_err 10 (by decide)⟩

/-- C3: for every constructed result value, however constructed, exactly
one of the `response` and `error` payload fields is populated - never
both, never neither - and the `is_success` discriminant is `true` exactly
when `response` is the populated field. -/
theorem result_payload_invariant (T : Type) (r : ResultT T) :
    (r.response.isSome = true ↔ r.error.isSome = false) ∧
    (r.is_success = true ↔ r.response.isSome = true) := by
  cases r with
  | ok o =>
    simp [ResultT.response, ResultT.error, ResultT.is_success,
      o.error.property, o.is_success.property]
  | err e =>
    simp [ResultT.response, ResultT.error, ResultT.is_success,
      e.response.property, e.is_success.property]

/-- C4: `A.from_b` and `B.from_a` each return the default-constructed
(zero-argument) instance of their own type, independent of the contents
of their argument. -/
theorem factories_return_fresh_default (b : B) (a : A) :
    A.from_b b = {} ∧ B.from_a a = {} ∧
    (∀ b2 : B, A.from_b b = A.from_b b2) ∧
    (∀ a2 : A, B.from_a a = B.from_a a2) :=
  ⟨rfl, rfl, fun _ => rfl, fun _ => rfl⟩

/-- C5: the `is_success` discriminant is immutable after construction.
The well-typed operations on a constructed `Ok` or `Err` value are field
reads (which change nothing) and field assignments; an assignment to a
`Literal`-typed `is_success` field can only supply the pinned literal,
and assignments to the other fields do not touch `is_success`, so no
operation changes the discriminant. -/
theorem is_success_immutable (T : Type) (o : Ok T) (e : Err T)
    (b : {b : Bool // b = true}) (c : {c : Bool // c = false})
    (r : T) (x : PyBaseException) :
    (o.set_is_success b).is_success.val = o.is_success.val ∧
    (e.set_is_success c).is_success.val = e.is_success.val ∧
    (o.set_response r).is_success.val = o.is_success.val ∧
    (e.set_error x).is_success.val = e.is_success.val ∧
    (ResultT.ok (o.set_is_success b)).is_success =
      (ResultT.ok o).is_success ∧
    (ResultT.err (e.set_is_success c)).is_success =
      (ResultT.err e).is_success := by
  refine ⟨?_, ?_, rfl, rfl, ?_, ?_⟩ <;>
    simp [Ok.set_is_success, Err.set_is_success, ResultT.is_success,
      b.property, c.property, o.is_success.property, e.is_success.property]

/-- C6: `interface` is deterministic and has no side effects: running its
body over any ambient state returns the same value as the pure function,
leaves the state untouched, and the returned value does not depend on the
state. -/
theorem interface_deterministic_no_side_effects
    (σ : Type) (v : Int) (s t : σ) :
    (interfaceRun σ v s).2 = s ∧
    (interfaceRun σ v s).1 = interface v ∧
    (interfaceRun σ v s).1 = (interfaceRun σ v t).1 :=
  ⟨rfl, rfl, rfl⟩

/-- C7: the module's illustrative branch never raises: on any result
value both arms merely reference a field and end in `Except.ok`, and in
particular executing the branch on the module-level `result` raises
nothing (it reads `result.response` in the success arm). -/
theorem moduleBranch_never_raises :
    (∀ r : ResultT Int, ∃ b, moduleBranch r = Except.ok b) ∧
    moduleBranch result = Except.ok (BranchTaken.success (some 12)) := by
  constructor
  · intro r
    by_cases h : r.is_success = true
    · exact ⟨BranchTaken.success r.response, by simp [moduleBranch, h]⟩
    · exact ⟨BranchTaken.failure r.error, by simp [moduleBranch, h]⟩
  · rfl

/-- C8: whenever `interface v` returns the failure variant (`v ≤ 10`),
the stored exception is specifically `ValueError()` - a `ValueError`
constructed with no arguments. -/
theorem interface_le_error_is_valueError (v : Int) (h : v ≤ 10) :
    (interface v).error = some (PyBaseException.valueError []) := by
  simp only [interface, if_neg (not_lt.mpr h)]
  rfl

/-- Witness for C8 at the concrete input `0`. -/
theorem interface_le_error_is_valueError_witness :
    (0 : Int) ≤ 10 ∧
      (interface 0).error = some (PyBaseException.valueError []) :=
  ⟨by decide, interface_le_error_is_valueError 0 (by decide)⟩

/-- C9: `interface` is total over all integers: its body, evaluated under
exception tracking, terminates in `Except.ok` on every input (never
raising), and the value returned is one of the two variants. -/
theorem interface_total (v : Int) :
    interfaceExcept v = Except.ok (interface v) ∧
    ((∃ o, interface v = ResultT.ok o) ∨
      (∃ e, interface v = ResultT.err e)) := by
  constructor
  · unfold interfaceExcept interface
    split <;> rfl
  · unfold interface
    split
    · exact Or.inl ⟨_, rfl⟩
    · exact Or.inr ⟨_, rfl⟩

/-- C10: the module-level binding `result` equals
`Ok(response=12, error=None, is_success=True)`, and the success arm of
the narrowing branch (reading `result.response`) is the one taken. -/
theorem result_is_ok_twelve :
    result = ResultT.ok { response := (12 : Int) } ∧
    result.response = some 12 ∧ result.error = none ∧
    result.is_success = true ∧
    moduleBranch result = Except.ok (BranchTaken.success (some 12)) :=
  ⟨rfl, rfl, rfl, rfl, rfl⟩

end TypingExamples
